import Mathlib

/-!
Verification of the xk6-disruptor pod-disruptor facade and kubernetes client
bootstrap, as a shallow embedding of the Go sources
(`pkg/disruptors/pod.go` and the kubernetes client package).

Cluster interactions (pod listing, agent injection, command execution) are
modelled as oracle functions collected in a `Cluster` record; every embedded
operation additionally returns the trace of cluster calls it performed, so
that "no cluster call is made" is a provable statement.
-/

namespace XK6

/-! ## Data model (from `pkg/disruptors/pod.go`) -/

/-- `PodAttributes` from pod.go. Go's `Labels map[string]string` may be `nil`
(the zero value) or a concrete map; `reflect.DeepEqual` distinguishes a nil
map from a non-nil empty map, so the embedding keeps the distinction:
`none` is the nil map, `some l` a map literal with entries `l`. -/
structure PodAttributes where
  Labels : Option (List (String × String))
deriving DecidableEq, Repr

/-- `PodSelector` from pod.go: namespace plus include/exclude attributes. -/
structure PodSelector where
  Namespace : String
  Select : PodAttributes
  Exclude : PodAttributes
deriving DecidableEq, Repr

/-- `PodDisruptorOptions` from pod.go. `InjectTimeout` is a Go
`time.Duration`, a signed integer number of nanoseconds. -/
structure PodDisruptorOptions where
  InjectTimeout : Int
deriving DecidableEq, Repr

/-- `helpers.PodFilter` as built in `NewPodDisruptor`: the label maps taken
from the selector's Select and Exclude attributes. -/
structure PodFilter where
  Select : Option (List (String × String))
  Exclude : Option (List (String × String))
deriving DecidableEq, Repr

/-- A command line for the in-pod agent (Go `[]string`). -/
abbrev Command := List String

/-- A Go `context.Context` value. `context.TODO()` is the placeholder the
kubernetes constructor substitutes for a nil context; a nil context itself is
modelled as `none : Option GoContext`. -/
inductive GoContext where
  | background
  | todo
  | custom (id : Nat)
deriving DecidableEq, Repr

/-- One observable cluster interaction performed by the embedded code. -/
inductive ClusterCall where
  | listPods (ns : String) (filter : PodFilter)
  | injectAgent (ns : String) (targets : List String) (timeout : Int)
  | execCommand (cmd : Command)
deriving DecidableEq, Repr

/-- The cluster behind the `kubernetes.Kubernetes` interface, as oracles:
`list` is the namespaced pod helper's `List`, `inject` the behaviour of
`AgentController.InjectDisruptorAgent` (not under the verified sources, so
abstract), `exec` the behaviour of `AgentController.ExecCommand`. An
`Option String` result is a Go `error` return: `none` is nil. -/
structure Cluster where
  list : String → PodFilter → Except String (List String)
  inject : String → List String → Int → Option String
  exec : String → List String → Command → Option String

/-- The namespace-scoped pod helper obtained from `k8s.PodHelper(namespace)`. -/
structure PodHelper where
  cluster : Cluster
  ns : String

/-- `k8s.PodHelper(namespace)` from the kubernetes interface. -/
def Cluster.PodHelper (c : Cluster) (ns : String) : PodHelper := ⟨c, ns⟩

/-- `helper.List(ctx, filter)`: delegated to the cluster oracle for the
helper's namespace. -/
def PodHelper.List (h : PodHelper) (filter : PodFilter) : Except String (List String) :=
  h.cluster.list h.ns filter

/-- The `AgentController` as constructed by `NewAgentController(ctx, helper,
namespace, targets, timeout)` in pod.go: it owns the helper's cluster, the
namespace it was given, the target list and the injection timeout. -/
structure AgentController where
  cluster : Cluster
  ns : String
  targets : List String
  injectTimeout : Int

/-- `NewAgentController` call from pod.go (the controller implementation is a
collaborator; the facade hands it the helper, namespace, targets, timeout). -/
def NewAgentController (cluster : Cluster) (ns : String) (targets : List String)
    (injectTimeout : Int) : AgentController :=
  ⟨cluster, ns, targets, injectTimeout⟩

/-- `controller.InjectDisruptorAgent()`: delegated to the cluster oracle with
everything the controller was constructed with. -/
def AgentController.InjectDisruptorAgent (c : AgentController) : Option String :=
  c.cluster.inject c.ns c.targets c.injectTimeout

/-- `controller.ExecCommand(cmd)`: delegated to the cluster oracle with the
controller's namespace and targets. -/
def AgentController.ExecCommand (c : AgentController) (cmd : Command) : Option String :=
  c.cluster.exec c.ns c.targets cmd

/-- `podDisruptor` struct from pod.go: the stored context and controller. -/
structure podDisruptor where
  ctx : Option GoContext
  controller : AgentController

/-- `metav1.NamespaceDefault` from the kubernetes API machinery. -/
def metav1NamespaceDefault : String := "default"

/-- `NewPodDisruptor` from pod.go, lines 51-97, transcribed statement by
statement. `emptySelect`/`emptyExclude` are the `reflect.DeepEqual`
comparisons with the zero value `PodAttributes{}` (whose label map is nil).
Note the Go code saves `namespace := selector.Namespace` before the
defaulting branch and passes that saved variable to `PodHelper` and
`NewAgentController`; the defaulted value is written to `selector.Namespace`.
The second component of the result is the trace of cluster calls. -/
def NewPodDisruptor (ctx : Option GoContext) (k8s : Cluster) (selector : PodSelector)
    (options : PodDisruptorOptions) : Except String podDisruptor × List ClusterCall :=
  let emptySelect := selector.Select = PodAttributes.mk none
  let emptyExclude := selector.Exclude = PodAttributes.mk none
  if selector.Namespace = "" ∧ emptySelect ∧ emptyExclude then
    (Except.error "namespace, select and exclude attributes in pod selector cannot all be empty",
     [])
  else
    let ns := selector.Namespace
    let selector :=
      if selector.Namespace = "" then
        { selector with Namespace := metav1NamespaceDefault }
      else selector
    let helper := k8s.PodHelper ns
    let filter : PodFilter := ⟨selector.Select.Labels, selector.Exclude.Labels⟩
    match helper.List filter with
    | Except.error e => (Except.error e, [ClusterCall.listPods ns filter])
    | Except.ok targets =>
      let controller := NewAgentController k8s ns targets options.InjectTimeout
      match controller.InjectDisruptorAgent with
      | some e =>
          (Except.error e,
           [ClusterCall.listPods ns filter,
            ClusterCall.injectAgent ns targets options.InjectTimeout])
      | none =>
          (Except.ok ⟨ctx, controller⟩,
           [ClusterCall.listPods ns filter,
            ClusterCall.injectAgent ns targets options.InjectTimeout])

/-- The filter `NewPodDisruptor` builds from a selector (defaulting the
namespace does not touch the Select/Exclude attributes). -/
def filterOf (selector : PodSelector) : PodFilter :=
  ⟨selector.Select.Labels, selector.Exclude.Labels⟩

/-- `(d *podDisruptor) Targets()` from pod.go delegates to the controller's
tracked target set. -/
def podDisruptor.Targets (d : podDisruptor) : List String :=
  d.controller.targets

/-! ## Fault specifications and the command builder

The fault structs and `buildHTTPFaultCmd` / `buildGrpcFaultCmd` live outside
the verified sources; pod.go only shows their call sites, where the builders
return a command and no error. -/

/-- Modelled from the spec: `HTTPFault{AverageDelay, ErrorRate, ErrorCode,
Exclude paths, Port}` (the struct definition is not under the verified
sources). The error rate is a fraction, modelled as a rational. -/
structure HTTPFault where
  AverageDelay : Int
  ErrorRate : Rat
  ErrorCode : Nat
  Exclude : List String
  Port : Nat
deriving DecidableEq, Repr

/-- Modelled from the spec: `GrpcFault{AverageDelay, ErrorRate, StatusCode,
Exclude services, Port}` (not under the verified sources). -/
structure GrpcFault where
  AverageDelay : Int
  ErrorRate : Rat
  StatusCode : Int
  Exclude : List String
  Port : Nat
deriving DecidableEq, Repr

/-- Modelled from the spec: protocol-specific disruption options
(port/proxy overrides). -/
structure HTTPDisruptionOptions where
  ProxyPort : Nat
deriving DecidableEq, Repr

/-- Modelled from the spec: gRPC disruption options (port/proxy overrides). -/
structure GrpcDisruptionOptions where
  ProxyPort : Nat
deriving DecidableEq, Repr

/-- Render a rational error rate unambiguously. -/
def ratStr (r : Rat) : String :=
  toString r.num ++ "/" ++ toString r.den

/-- Modelled from the spec: `buildHTTPFaultCmd` (source not under the
verified tree) encodes average delay, error rate, error status code,
excluded path prefixes, target port and total duration into the agent's
command line. Its call site in pod.go shows it returns only a command,
with no error channel. -/
def buildHTTPFaultCmd (fault : HTTPFault) (duration : Int)
    (options : HTTPDisruptionOptions) : Command :=
  ["http",
   "-d", toString duration ++ "ns",
   "-a", toString fault.AverageDelay ++ "ns",
   "-r", ratStr fault.ErrorRate,
   "-e", toString fault.ErrorCode,
   "-x", String.intercalate "," fault.Exclude,
   "-t", toString fault.Port,
   "-p", toString options.ProxyPort]

/-- Modelled from the spec: `buildGrpcFaultCmd` (source not under the
verified tree) encodes average delay, error rate, status code, excluded
service names, target port and total duration. -/
def buildGrpcFaultCmd (fault : GrpcFault) (duration : Int)
    (options : GrpcDisruptionOptions) : Command :=
  ["grpc",
   "-d", toString duration ++ "ns",
   "-a", toString fault.AverageDelay ++ "ns",
   "-r", ratStr fault.ErrorRate,
   "-s", toString fault.StatusCode,
   "-x", String.intercalate "," fault.Exclude,
   "-t", toString fault.Port,
   "-p", toString options.ProxyPort]

/-- `(d *podDisruptor) InjectHTTPFaults` from pod.go: builds the command,
then runs it through the controller's `ExecCommand`, returning that error
unchanged. The second component records the cluster call made. -/
def podDisruptor.InjectHTTPFaults (d : podDisruptor) (fault : HTTPFault)
    (duration : Int) (options : HTTPDisruptionOptions) :
    Option String × List ClusterCall :=
  let cmd := buildHTTPFaultCmd fault duration options
  (d.controller.ExecCommand cmd, [ClusterCall.execCommand cmd])

/-- `(d *podDisruptor) InjectGrpcFaults` from pod.go: same shape as the HTTP
variant. -/
def podDisruptor.InjectGrpcFaults (d : podDisruptor) (fault : GrpcFault)
    (duration : Int) (options : GrpcDisruptionOptions) :
    Option String × List ClusterCall :=
  let cmd := buildGrpcFaultCmd fault duration options
  (d.controller.ExecCommand cmd, [ClusterCall.execCommand cmd])

/-! ## Injection wait policy (InjectTimeout semantics)

The `AgentController` implementation is not under the verified sources; the
facade's `PodDisruptorOptions` documents the field as "A zero value forces
default. A Negative value forces no waiting." -/

/-- Per-target injection state from the spec's Target lifecycle. -/
inductive InjectionState where
  | Pending
  | Injected
  | InjectionFailed
deriving DecidableEq, Repr

/-- Modelled from the spec: per-target wait policy of
`InjectDisruptorAgent` (the controller implementation is not under the
verified sources). `injectTimeout` negative: do not wait, the target becomes
`Injected` optimistically regardless of when (or whether) the agent becomes
ready. Otherwise block up to a bound that is the system default when the
timeout is zero and the timeout itself when positive; the target becomes
`Injected` when the agent becomes ready within the bound (`agentReadyAt`,
`none` meaning never) and `InjectionFailed` otherwise. -/
def injectOneTarget (injectTimeout : Int) (defaultWait : Int)
    (agentReadyAt : Option Int) : InjectionState :=
  if injectTimeout < 0 then
    InjectionState.Injected
  else
    let bound := if injectTimeout = 0 then defaultWait else injectTimeout
    match agentReadyAt with
    | some r => if r ≤ bound then InjectionState.Injected else InjectionState.InjectionFailed
    | none => InjectionState.InjectionFailed

/-! ## Kubernetes client bootstrap (the kubernetes package source file) -/

/-- The mutable fields of `rest.Config` the code touches, plus a host
identity so distinct configurations stay distinct. -/
structure RestConfig where
  Host : String
  QPS : Int
  Burst : Int
deriving DecidableEq, Repr

/-- `Config` struct from the kubernetes package: context plus kubeconfig
path. A nil context is `none`. -/
structure Config where
  Context : Option GoContext
  Kubeconfig : String

/-- The `k8s` struct from the kubernetes package: the rest config and the
stored context (the client-go `Interface` itself is opaque). -/
structure k8sInstance where
  config : RestConfig
  ctx : Option GoContext
deriving DecidableEq, Repr

/-- The process environment behind the client constructors: client
construction, discovery, the reported server version (major, minor), the
in-cluster config, the kubeconfig path lookup, and kubeconfig loading.
Every fallible Go call is an `Except` and `Option String` is a nil-able
error as before. -/
structure ClientEnv where
  newForConfig : RestConfig → Option String
  discoveryForConfig : RestConfig → Except String Unit
  serverVersion : RestConfig → Except String (String × String)
  inClusterConfig : Except String RestConfig
  getConfigPath : Except String String
  buildConfigFromFlags : String → Except String RestConfig

/-- Go's `<` on strings: byte-wise lexicographic comparison (all strings the
version check builds are ASCII, so character comparison coincides). -/
def goStrLtChars : List Char → List Char → Bool
  | [], [] => false
  | [], _ :: _ => true
  | _ :: _, [] => false
  | a :: as, b :: bs =>
      if a < b then true
      else if b < a then false
      else goStrLtChars as bs

/-- Go string comparison `s < t`. -/
def goStrLt (s t : String) : Bool :=
  goStrLtChars s.data t.data

/-- `checkK8sVersion` from the kubernetes package: builds a discovery client,
fetches the server version, formats `v<Major>.<Minor>` and rejects it when
it is `<` the literal `"v1.23"` under Go string comparison (the source's own
TODO notes this is not a proper semver check). -/
def checkK8sVersion (env : ClientEnv) (config : RestConfig) : Option String :=
  match env.discoveryForConfig config with
  | Except.error e => some e
  | Except.ok _ =>
    match env.serverVersion config with
    | Except.error e => some e
    | Except.ok (major, minor) =>
      let semver := "v" ++ major ++ "." ++ minor
      if goStrLt semver "v1.23" then
        some ("unsupported Kubernetes version. Expected >= v1.23 but actual is " ++ semver)
      else
        none

/-- `newWithContext` from the kubernetes package: sets `QPS = 100` and
`Burst = 150` on the config, builds the client, runs the version check, and
substitutes `context.TODO()` for a nil context before storing it. -/
def newWithContext (env : ClientEnv) (ctx : Option GoContext) (config : RestConfig) :
    Except String k8sInstance :=
  let config := { config with QPS := 100, Burst := 150 }
  match env.newForConfig config with
  | some e => Except.error e
  | none =>
    match checkK8sVersion env config with
    | some e => Except.error e
    | none =>
      let ctx := if ctx = none then some GoContext.todo else ctx
      Except.ok { config := config, ctx := ctx }

/-- `NewFromConfig` from the kubernetes package. -/
def NewFromConfig (env : ClientEnv) (c : Config) : Except String k8sInstance :=
  match env.buildConfigFromFlags c.Kubeconfig with
  | Except.error e => Except.error e
  | Except.ok config => newWithContext env c.Context config

/-- `NewFromKubeconfig` from the kubernetes package: the Config's Context
field is left at its zero value (nil). -/
def NewFromKubeconfig (env : ClientEnv) (kubeconfig : String) : Except String k8sInstance :=
  NewFromConfig env { Context := none, Kubeconfig := kubeconfig }

/-- `New` from the kubernetes package: in-cluster config first, falling back
to the kubeconfig path. -/
def New (env : ClientEnv) (ctx : Option GoContext) : Except String k8sInstance :=
  match env.inClusterConfig with
  | Except.error _ =>
    match env.getConfigPath with
    | Except.error e => Except.error ("error getting kubernetes config path: " ++ e)
    | Except.ok path => NewFromConfig env { Context := ctx, Kubeconfig := path }
  | Except.ok k8sConfig => newWithContext env ctx k8sConfig

/-- `(k *k8s) Context()` from the kubernetes package. -/
def k8sInstance.Context (k : k8sInstance) : Option GoContext :=
  k.ctx

/-! ## Test fixtures (concrete clusters and environments for witnesses) -/

/-- A cluster on which every operation succeeds and listing yields one pod. -/
def okCluster : Cluster where
  list := fun _ _ => Except.ok ["pod-a"]
  inject := fun _ _ _ => none
  exec := fun _ _ _ => none

/-- A cluster whose listing yields no pods. -/
def emptyListCluster : Cluster :=
  { okCluster with list := fun _ _ => Except.ok [] }

/-- A cluster whose pod listing fails. -/
def listErrCluster : Cluster :=
  { okCluster with list := fun _ _ => Except.error "list failed" }

/-- A cluster on which agent injection fails. -/
def injectErrCluster : Cluster :=
  { okCluster with inject := fun _ _ _ => some "injection failed for pod-a" }

/-- A selector with an empty namespace and a non-empty Select attribute. -/
def nsEmptySelector : PodSelector :=
  ⟨"", ⟨some [("app", "nginx")]⟩, ⟨none⟩⟩

/-- A disruptor instance over `okCluster` for exercising fault injection. -/
def sampleDisruptor : podDisruptor :=
  ⟨none, NewAgentController okCluster "default" ["pod-a"] 0⟩

/-- An HTTP fault whose error rate lies outside the unit interval. -/
def badRateHTTPFault : HTTPFault :=
  ⟨0, 2, 500, [], 80⟩

/-- A fully-empty selector is the one `NewPodDisruptor` rejects: empty
namespace and both attributes at their zero value (nil label maps). -/
def emptySelector (selector : PodSelector) : Prop :=
  selector.Namespace = "" ∧ selector.Select = PodAttributes.mk none
    ∧ selector.Exclude = PodAttributes.mk none

instance (selector : PodSelector) : Decidable (emptySelector selector) := by
  unfold emptySelector
  infer_instance

/-- Characterization of `NewPodDisruptor`: unfolds the helper and controller
delegation, and records that the filter is built from the original selector's
attributes while the namespace handed to the helper and the controller is the
original (pre-defaulting) one. -/
theorem newPodDisruptor_eq (ctx : Option GoContext) (k8s : Cluster)
    (sel : PodSelector) (opts : PodDisruptorOptions) :
    NewPodDisruptor ctx k8s sel opts =
      if emptySelector sel then
        (Except.error "namespace, select and exclude attributes in pod selector cannot all be empty",
         [])
      else
        match k8s.list sel.Namespace (filterOf sel) with
        | Except.error e => (Except.error e, [ClusterCall.listPods sel.Namespace (filterOf sel)])
        | Except.ok targets =>
          match k8s.inject sel.Namespace targets opts.InjectTimeout with
          | some e =>
              (Except.error e,
               [ClusterCall.listPods sel.Namespace (filterOf sel),
                ClusterCall.injectAgent sel.Namespace targets opts.InjectTimeout])
          | none =>
              (Except.ok ⟨ctx, NewAgentController k8s sel.Namespace targets opts.InjectTimeout⟩,
               [ClusterCall.listPods sel.Namespace (filterOf sel),
                ClusterCall.injectAgent sel.Namespace targets opts.InjectTimeout]) := by
  have hsel :
      (if sel.Namespace = "" then { sel with Namespace := metav1NamespaceDefault }
        else sel).Select.Labels = sel.Select.Labels := by
    split <;> rfl
  have hexc :
      (if sel.Namespace = "" then { sel with Namespace := metav1NamespaceDefault }
        else sel).Exclude.Labels = sel.Exclude.Labels := by
    split <;> rfl
  simp only [NewPodDisruptor, PodHelper.List, Cluster.PodHelper,
    AgentController.InjectDisruptorAgent, NewAgentController, filterOf, emptySelector,
    hsel, hexc]

/-! ## Claim theorems -/

/-- C1: for every PodSelector whose Namespace is the empty string and whose
Select and Exclude attributes are both empty (the zero value), NewPodDisruptor
fails with the invalid-selector error and performs no cluster call: the trace
is empty, so there is no listing and no injection. -/
theorem newPodDisruptor_empty_selector_rejected (ctx : Option GoContext) (k8s : Cluster)
    (selector : PodSelector) (options : PodDisruptorOptions)
    (hns : selector.Namespace = "") (hsel : selector.Select = PodAttributes.mk none)
    (hexc : selector.Exclude = PodAttributes.mk none) :
    NewPodDisruptor ctx k8s selector options =
      (Except.error "namespace, select and exclude attributes in pod selector cannot all be empty",
       []) := by
  rw [newPodDisruptor_eq]
  rw [if_pos ⟨hns, hsel, hexc⟩]

/-- Witness for C1 at a concrete empty selector over a live cluster. -/
theorem newPodDisruptor_empty_selector_rejected_witness :
    NewPodDisruptor none okCluster ⟨"", ⟨none⟩, ⟨none⟩⟩ ⟨0⟩ =
      (Except.error "namespace, select and exclude attributes in pod selector cannot all be empty",
       []) :=
  newPodDisruptor_empty_selector_rejected none okCluster ⟨"", ⟨none⟩, ⟨none⟩⟩ ⟨0⟩ rfl rfl rfl

/-- C2 (refutation): with an empty namespace and a non-empty Select,
NewPodDisruptor hands the ORIGINAL empty namespace — not the cluster default
"default" — both to the pod listing and to the agent controller it builds:
the code saves `namespace := selector.Namespace` before the defaulting branch
and writes the default only into `selector.Namespace`, which is never read
again. The trace shows the listing and injection happening in namespace `""`,
and the constructed controller carries namespace `""`. -/
theorem newPodDisruptor_namespace_not_defaulted :
    (NewPodDisruptor none okCluster nsEmptySelector ⟨0⟩).2 =
      [ClusterCall.listPods "" ⟨some [("app", "nginx")], none⟩,
       ClusterCall.injectAgent "" ["pod-a"] 0]
    ∧ (NewPodDisruptor none okCluster nsEmptySelector ⟨0⟩).1 =
        Except.ok ⟨none, NewAgentController okCluster "" ["pod-a"] 0⟩
    ∧ "" ≠ metav1NamespaceDefault :=
  ⟨rfl, rfl, by decide⟩

/-- C3 (counterexample): a malformed fault specification — here a strictly
negative duration — is not rejected before the cluster call: on a concrete
disruptor, `InjectHTTPFaults` still performs the `ExecCommand` cluster call,
refuting "ExecCommand is never invoked on a malformed spec". -/
theorem injectHTTPFaults_malformed_still_execs :
    (-1 : Int) ≤ 0
    ∧ (sampleDisruptor.InjectHTTPFaults badRateHTTPFault (-1) ⟨8080⟩).2 =
        [ClusterCall.execCommand (buildHTTPFaultCmd badRateHTTPFault (-1) ⟨8080⟩)]
    ∧ (sampleDisruptor.InjectHTTPFaults badRateHTTPFault (-1) ⟨8080⟩).2 ≠ [] :=
  ⟨by decide, rfl, by simp [podDisruptor.InjectHTTPFaults]⟩

/-- C3 (amended): for every fault specification — malformed ones included —
InjectHTTPFaults and InjectGrpcFaults build the command and invoke
ExecCommand on it unconditionally; no InvalidFaultSpec validation happens in
the facade before the cluster call (the builders return a command without an
error channel at these call sites). -/
theorem injectFaults_always_exec (d : podDisruptor) (hf : HTTPFault) (gf : GrpcFault)
    (duration : Int) (ho : HTTPDisruptionOptions) (go : GrpcDisruptionOptions) :
    (d.InjectHTTPFaults hf duration ho).2 =
        [ClusterCall.execCommand (buildHTTPFaultCmd hf duration ho)]
    ∧ (d.InjectGrpcFaults gf duration go).2 =
        [ClusterCall.execCommand (buildGrpcFaultCmd gf duration go)] :=
  ⟨rfl, rfl⟩

/-- C6: InjectHTTPFaults (resp. InjectGrpcFaults) returns exactly the error
produced by the controller's ExecCommand applied to the command built from
its arguments — no wrapping, no substitution. -/
theorem injectFaults_propagate_exec_result (d : podDisruptor) (hf : HTTPFault) (gf : GrpcFault)
    (duration : Int) (ho : HTTPDisruptionOptions) (go : GrpcDisruptionOptions) :
    (d.InjectHTTPFaults hf duration ho).1 =
        d.controller.ExecCommand (buildHTTPFaultCmd hf duration ho)
    ∧ (d.InjectGrpcFaults gf duration go).1 =
        d.controller.ExecCommand (buildGrpcFaultCmd gf duration go) :=
  ⟨rfl, rfl⟩

/-- C4: NewPodDisruptor is all-or-nothing. A disruptor is returned only when
selector validation, listing and injection all succeeded (and then its
controller holds exactly the listed targets); an empty selector yields the
validation error; a listing error is returned as-is; an injection error is
returned as-is. In every failing execution the disruptor value is the error
constructor, i.e. no instance accompanies an error. -/
theorem newPodDisruptor_all_or_nothing (ctx : Option GoContext) (k8s : Cluster)
    (sel : PodSelector) (opts : PodDisruptorOptions) :
    (∀ d, (NewPodDisruptor ctx k8s sel opts).1 = Except.ok d →
        ¬ emptySelector sel
        ∧ k8s.list sel.Namespace (filterOf sel) = Except.ok d.controller.targets
        ∧ k8s.inject sel.Namespace d.controller.targets opts.InjectTimeout = none)
    ∧ (emptySelector sel →
        (NewPodDisruptor ctx k8s sel opts).1 =
          Except.error "namespace, select and exclude attributes in pod selector cannot all be empty")
    ∧ (∀ e, ¬ emptySelector sel →
        k8s.list sel.Namespace (filterOf sel) = Except.error e →
        (NewPodDisruptor ctx k8s sel opts).1 = Except.error e)
    ∧ (∀ targets e, ¬ emptySelector sel →
        k8s.list sel.Namespace (filterOf sel) = Except.ok targets →
        k8s.inject sel.Namespace targets opts.InjectTimeout = some e →
        (NewPodDisruptor ctx k8s sel opts).1 = Except.error e) := by
  rw [newPodDisruptor_eq]
  refine ⟨?_, ?_, ?_, ?_⟩
  · intro d hd
    by_cases hES : emptySelector sel
    · rw [if_pos hES] at hd
      exact absurd hd (by simp)
    · rw [if_neg hES] at hd
      refine ⟨hES, ?_⟩
      cases hlist : k8s.list sel.Namespace (filterOf sel) with
      | error e => simp [hlist] at hd
      | ok targets =>
        simp only [hlist] at hd
        cases hinj : k8s.inject sel.Namespace targets opts.InjectTimeout with
        | some e => simp [hinj] at hd
        | none =>
          simp only [hinj, Except.ok.injEq] at hd
          subst hd
          exact ⟨rfl, hinj⟩
  · intro hES
    rw [if_pos hES]
  · intro e hES hlist
    simp [if_neg hES, hlist]
  · intro targets e hES hlist hinj
    simp [if_neg hES, hlist, hinj]

/-- Witness for C4: on concrete clusters, a listing failure and an injection
failure each propagate to the construction result, and the validation error
fires on the fully-empty selector. -/
theorem newPodDisruptor_all_or_nothing_witness :
    (NewPodDisruptor none listErrCluster nsEmptySelector ⟨0⟩).1 = Except.error "list failed"
    ∧ (NewPodDisruptor none injectErrCluster nsEmptySelector ⟨0⟩).1 =
        Except.error "injection failed for pod-a"
    ∧ (NewPodDisruptor none okCluster ⟨"", ⟨none⟩, ⟨none⟩⟩ ⟨0⟩).1 =
        Except.error "namespace, select and exclude attributes in pod selector cannot all be empty" :=
  ⟨(newPodDisruptor_all_or_nothing none listErrCluster nsEmptySelector ⟨0⟩).2.2.1
      "list failed" (by decide) rfl,
   (newPodDisruptor_all_or_nothing none injectErrCluster nsEmptySelector ⟨0⟩).2.2.2
      ["pod-a"] "injection failed for pod-a" (by decide) rfl rfl,
   (newPodDisruptor_all_or_nothing none okCluster ⟨"", ⟨none⟩, ⟨none⟩⟩ ⟨0⟩).2.1
      (by decide)⟩

/-- C7: a valid selector whose match set is empty does not make
NewPodDisruptor fail: when listing succeeds with no pods (and injection over
the empty target set reports no error), a disruptor with zero targets is
returned — emptiness is never tested between listing and controller
construction. -/
theorem newPodDisruptor_empty_match_ok (ctx : Option GoContext) (k8s : Cluster)
    (sel : PodSelector) (opts : PodDisruptorOptions)
    (hvalid : ¬ emptySelector sel)
    (hlist : k8s.list sel.Namespace (filterOf sel) = Except.ok [])
    (hinj : k8s.inject sel.Namespace [] opts.InjectTimeout = none) :
    ∃ d, (NewPodDisruptor ctx k8s sel opts).1 = Except.ok d ∧ d.Targets = [] := by
  refine ⟨⟨ctx, NewAgentController k8s sel.Namespace [] opts.InjectTimeout⟩, ?_, rfl⟩
  rw [newPodDisruptor_eq, if_neg hvalid]
  simp [hlist, hinj]

/-- Witness for C7: a cluster whose listing yields no pods still produces a
disruptor, with an empty target list. -/
theorem newPodDisruptor_empty_match_ok_witness :
    ∃ d, (NewPodDisruptor none emptyListCluster nsEmptySelector ⟨0⟩).1 = Except.ok d
      ∧ d.Targets = [] :=
  newPodDisruptor_empty_match_ok none emptyListCluster nsEmptySelector ⟨0⟩
    (by decide) rfl rfl

/-- A rest config before the constructor touches it. -/
def cfg0 : RestConfig := ⟨"https://cluster.local", 0, 0⟩

/-- An environment whose cluster reports the given server version and on
which every other operation succeeds. -/
def envWithVersion (major minor : String) : ClientEnv where
  newForConfig := fun _ => none
  discoveryForConfig := fun _ => Except.ok ()
  serverVersion := fun _ => Except.ok (major, minor)
  inClusterConfig := Except.error "not in cluster"
  getConfigPath := Except.ok "/home/user/.kube/config"
  buildConfigFromFlags := fun _ => Except.ok cfg0

/-- C5 (refutation): the version gate compares the formatted version string
with `"v1.23"` by Go string order, not numerically. A server at 1.9 — below
the v1.23 threshold, since 9 &lt; 23 — passes the check (`"v1.9"` is not
lexicographically below `"v1.23"`), and a server at 1.100 — above the
threshold, since 23 &lt; 100 — is rejected. Both directions of the claimed
threshold semantics fail; the source marks the comparison with a TODO for a
proper semver check. -/
theorem checkK8sVersion_string_compare_bug :
    checkK8sVersion (envWithVersion "1" "9") cfg0 = none
    ∧ (9 : Nat) < 23
    ∧ checkK8sVersion (envWithVersion "1" "100") cfg0 =
        some "unsupported Kubernetes version. Expected >= v1.23 but actual is v1.100"
    ∧ (23 : Nat) < 100 :=
  ⟨by decide, by decide, by decide, by decide⟩

/-- C8: three-way semantics of `InjectTimeout` over the modelled per-target
wait. A negative timeout never waits: the outcome is `Injected` no matter
when (or whether) the agent becomes ready. A zero timeout behaves exactly as
if the system default bound had been passed. A positive timeout bounds the
wait by itself: the target is `Injected` precisely when the agent becomes
ready within the timeout, and `InjectionFailed` when it never does. -/
theorem injectTimeout_three_way (t d : Int) (hd : 0 < d) :
    (t < 0 → ∀ ready, injectOneTarget t d ready = InjectionState.Injected)
    ∧ (t = 0 → ∀ ready, injectOneTarget t d ready = injectOneTarget d d ready)
    ∧ (0 < t →
        (∀ r, injectOneTarget t d (some r) = InjectionState.Injected ↔ r ≤ t)
        ∧ injectOneTarget t d none = InjectionState.InjectionFailed) := by
  have hdnot : ¬ d < 0 := not_lt.2 hd.le
  have hdne : d ≠ 0 := hd.ne'
  refine ⟨?_, ?_, ?_⟩
  · intro ht ready
    simp [injectOneTarget, ht]
  · intro ht ready
    subst ht
    cases ready with
    | none => simp [injectOneTarget, hdnot, hdne]
    | some r => simp [injectOneTarget, hdnot, hdne]
  · intro ht
    have hnot : ¬ t < 0 := not_lt.2 ht.le
    have hne : t ≠ 0 := ht.ne'
    constructor
    · intro r
      simp only [injectOneTarget, if_neg hnot, if_neg hne]
      split_ifs with h <;> simp [h]
    · simp [injectOneTarget, hnot]

/-- Witness for C8 at concrete timeouts: `-1` injects without waiting even
when the agent never becomes ready; `0` behaves like the default bound `30`;
`5` fails a target whose agent never becomes ready. -/
theorem injectTimeout_three_way_witness :
    injectOneTarget (-1) 30 none = InjectionState.Injected
    ∧ injectOneTarget 0 30 (some 10) = injectOneTarget 30 30 (some 10)
    ∧ injectOneTarget 5 30 none = InjectionState.InjectionFailed :=
  ⟨(injectTimeout_three_way (-1) 30 (by decide)).1 (by decide) none,
   (injectTimeout_three_way 0 30 (by decide)).2.1 rfl (some 10),
   ((injectTimeout_three_way 5 30 (by decide)).2.2 (by decide)).2⟩

/-- C9: a successfully constructed kubernetes instance never stores a nil
context: `Context()` is non-nil, and when the caller passed a nil context the
stored context is the `context.TODO()` placeholder. -/
theorem newWithContext_context_not_nil (env : ClientEnv) (ctx : Option GoContext)
    (config : RestConfig) (k : k8sInstance)
    (h : newWithContext env ctx config = Except.ok k) :
    k.Context ≠ none ∧ (ctx = none → k.Context = some GoContext.todo) := by
  simp only [newWithContext] at h
  cases hc : env.newForConfig { config with QPS := 100, Burst := 150 } with
  | some e => simp [hc] at h
  | none =>
    simp only [hc] at h
    cases hv : checkK8sVersion env { config with QPS := 100, Burst := 150 } with
    | some e => simp [hv] at h
    | none =>
      simp only [hv, Except.ok.injEq] at h
      subst h
      cases ctx with
      | none => exact ⟨by simp [k8sInstance.Context], fun _ => by simp [k8sInstance.Context]⟩
      | some c =>
        exact ⟨by simp [k8sInstance.Context], fun hnone => Option.noConfusion hnone⟩

/-- Witness for C9: constructing against a concrete healthy cluster with a
nil context yields an instance whose stored context is the TODO placeholder. -/
theorem newWithContext_context_not_nil_witness :
    (⟨⟨"https://cluster.local", 100, 150⟩, some GoContext.todo⟩ : k8sInstance).Context ≠ none
    ∧ ((none : Option GoContext) = none →
        (⟨⟨"https://cluster.local", 100, 150⟩, some GoContext.todo⟩ : k8sInstance).Context =
          some GoContext.todo) :=
  newWithContext_context_not_nil (envWithVersion "1" "25") none cfg0
    ⟨⟨"https://cluster.local", 100, 150⟩, some GoContext.todo⟩ rfl

/-- Invariant established by `newWithContext` on every successful result: the
stored config carries the rate limits the code set, and the version check on
that very config succeeded. -/
theorem newWithContext_ok_invariant (env : ClientEnv) (ctx : Option GoContext)
    (config : RestConfig) (k : k8sInstance)
    (h : newWithContext env ctx config = Except.ok k) :
    k.config.QPS = 100 ∧ k.config.Burst = 150 ∧ checkK8sVersion env k.config = none := by
  simp only [newWithContext] at h
  cases hc : env.newForConfig { config with QPS := 100, Burst := 150 } with
  | some e => simp [hc] at h
  | none =>
    simp only [hc] at h
    cases hv : checkK8sVersion env { config with QPS := 100, Burst := 150 } with
    | some e => simp [hv] at h
    | none =>
      simp only [hv, Except.ok.injEq] at h
      subst h
      exact ⟨rfl, rfl, hv⟩

/-- C10: every kubernetes instance returned by New, NewFromConfig,
NewFromKubeconfig or newWithContext has passed the server version check (on
exactly the config it stores) and carries client-side rate limits QPS 100 and
Burst 150; since every error path returns the error constructor, no instance
is ever returned whose version check failed. -/
theorem k8sConstructors_invariant (env : ClientEnv) (ctx : Option GoContext)
    (config : RestConfig) (c : Config) (path : String) (k : k8sInstance)
    (h : newWithContext env ctx config = Except.ok k
        ∨ NewFromConfig env c = Except.ok k
        ∨ NewFromKubeconfig env path = Except.ok k
        ∨ New env ctx = Except.ok k) :
    k.config.QPS = 100 ∧ k.config.Burst = 150 ∧ checkK8sVersion env k.config = none := by
  rcases h with h | h | h | h
  · exact newWithContext_ok_invariant env ctx config k h
  · simp only [NewFromConfig] at h
    cases hb : env.buildConfigFromFlags c.Kubeconfig with
    | error e => simp [hb] at h
    | ok cfg =>
      simp only [hb] at h
      exact newWithContext_ok_invariant env c.Context cfg k h
  · simp only [NewFromKubeconfig, NewFromConfig] at h
    cases hb : env.buildConfigFromFlags path with
    | error e => simp [hb] at h
    | ok cfg =>
      simp only [hb] at h
      exact newWithContext_ok_invariant env none cfg k h
  · simp only [New] at h
    cases hic : env.inClusterConfig with
    | ok cfg =>
      simp only [hic] at h
      exact newWithContext_ok_invariant env ctx cfg k h
    | error e =>
      simp only [hic] at h
      cases hp : env.getConfigPath with
      | error e2 => simp [hp] at h
      | ok path2 =>
        simp only [hp, NewFromConfig] at h
        cases hb : env.buildConfigFromFlags path2 with
        | error e3 => simp [hb] at h
        | ok cfg =>
          simp only [hb] at h
          exact newWithContext_ok_invariant env ctx cfg k h

/-- Witness for C10 on a concrete healthy environment, through the
`newWithContext` entry. -/
theorem k8sConstructors_invariant_witness :
    (⟨⟨"https://cluster.local", 100, 150⟩, some GoContext.todo⟩ : k8sInstance).config.QPS = 100
    ∧ (⟨⟨"https://cluster.local", 100, 150⟩, some GoContext.todo⟩ : k8sInstance).config.Burst = 150
    ∧ checkK8sVersion (envWithVersion "1" "25")
        (⟨⟨"https://cluster.local", 100, 150⟩, some GoContext.todo⟩ : k8sInstance).config = none :=
  k8sConstructors_invariant (envWithVersion "1" "25") none cfg0
    ⟨none, "/home/user/.kube/config"⟩ "/home/user/.kube/config"
    ⟨⟨"https://cluster.local", 100, 150⟩, some GoContext.todo⟩ (Or.inl rfl)

end XK6
